import Mathlib

/-!
Shallow embedding of the aws-operator resource-lifecycle code
(`src/resources/aws/*.go`, `src/service/create/*.go`) and proofs of the
specification claims about it.

Conventions of the embedding:
* Go `(T, error)` return pairs become `T × Option AErr` (`none` = nil error)
  or `Except AErr T` where only one of the two is meaningful.
* Provider (AWS) behaviour is abstracted as records of response functions
  over an explicit provider-state type; every provider call made by the
  embedded code is also recorded in an explicit call trace, so that
  "issues no creation call" is a provable statement.
* `microerror.MaskAny` / `MaskAnyf` wrap an error without changing its
  classification, so they are modelled as the identity on `AErr`.
-/

namespace AwsOperator

/-- Error classification used across the embedded code.  The concrete error
values of the Go code (`notFoundError`, `malformedCloudConfigKeyError`,
`clientNotInitializedError`, plain `fmt.Errorf` provider errors) map onto
the constructors below; `microerror` masking preserves the classification,
so masking is the identity here. -/
inductive AErr where
  | notFound (kind name : String)
  | clientNotInitialized
  | malformedCloudConfigKey
  | providerMsg (msg : String)
deriving DecidableEq, Repr

/-- Go `err.Error()` for the modelled errors: the string the ELB code
compares against the already-exists constant. -/
def AErr.errorString : AErr → String
  | .notFound kind name => "the resource " ++ kind ++ " " ++ name ++ " was not found"
  | .clientNotInitialized => "the client has not been initialized"
  | .malformedCloudConfigKey => "the cloud config key is malformed"
  | .providerMsg msg => msg

/-- Modelled from the spec: the NotFound error classifier of the resources
package (`IsNotFound` in `resources/aws`, whose error.go is not under src/);
per spec section 7 it recognises exactly the NotFound error kind, which
masking preserves. -/
def AErr.isNotFound : AErr → Bool
  | .notFound _ _ => true
  | _ => false

/-! ## Go string splitting (`strings.Split` / `strings.SplitN` on ".") -/

/-- Helper for `goSplit`: walks the characters, cutting at each separator.
`acc` holds the current field reversed. -/
def goSplitAux (sep : Char) : List Char → List Char → List (List Char)
  | [], acc => [acc.reverse]
  | c :: cs, acc =>
    if c = sep then acc.reverse :: goSplitAux sep cs []
    else goSplitAux sep cs (c :: acc)

/-- Go `strings.Split s (String.singleton sep)`: split on every occurrence
of the one-character separator; the empty string yields one empty field. -/
def goSplit (s : String) (sep : Char) : List String :=
  (goSplitAux sep s.data []).map String.mk

/-- Go `strings.SplitN s (String.singleton sep) n` for `n > 0`: at most `n`
fields, the last field being the unsplit remainder. -/
def goSplitN (s : String) (sep : Char) (n : Nat) : List String :=
  let parts := goSplit s sep
  if parts.length ≤ n then parts
  else parts.take (n - 1) ++ [String.intercalate (String.singleton sep) (parts.drop (n - 1))]

/-- Result of a Go function returning `(string, error)` whose body can also
panic at runtime (index out of range). -/
inductive GoStringResult where
  | panicked (msg : String)
  | errored (e : AErr)
  | ok (value : String)
deriving DecidableEq, Repr

/-- Discriminator: did the function return (via the error result)? -/
def GoStringResult.isErrored : GoStringResult → Bool
  | .errored _ => true
  | _ => false

/-- Embeds `hostedZoneName` of `src/service/create/domains.go`.  The Go code
builds the `Domain` struct literal from `tmp[0] .. tmp[5]` BEFORE the
`len(tmp) != 6` check; in Go, indexing a slice beyond its length panics, so
if `SplitN` produced fewer than 6 fields the function panics before the
malformed-key check is reached.  The final `strings.Join` applied to the
single remainder field is the identity on it (spec section 9 records this
join as an effective no-op), so the success value is the sixth field. -/
def hostedZoneName (domain : String) : GoStringResult :=
  let tmp := goSplitN domain '.' 6
  if tmp.length < 6 then .panicked "runtime error: index out of range"
  else
    let fixed := tmp.getD 5 ""
    if tmp.length ≠ 6 then .errored .malformedCloudConfigKey
    else .ok fixed

/-- Follows the words of the spec sentence for the hosted-zone derivation
(clearly NOT the source function): strip the two leftmost dot-separated
labels and keep the remainder intact as one string. -/
def specStripTwoLabels (domain : String) : String :=
  String.intercalate "." ((goSplit domain '.').drop 2)

/-! ## Compute-instance existence check
(`allExistingInstancesMatch` in `src/service/create/service.go` and the
tag-filtered `DescribeInstances` query of `runMachine` in
`src/unnamed/part_002`). -/

/-- EC2 instance state code for terminated instances (constant
`EC2TerminatedState` in both versions of service.go). -/
def EC2TerminatedState : Int := 48

structure InstanceState where
  code : Int
deriving DecidableEq, Repr

structure Ec2Instance where
  instanceId : String
  state : InstanceState
deriving DecidableEq, Repr

structure Reservation where
  instances : List Ec2Instance
deriving DecidableEq, Repr

/-- `DescribeInstancesOutput`: `Reservations` is nil when nothing matched. -/
structure DescribeInstancesOutput where
  reservations : Option (List Reservation)
deriving DecidableEq, Repr

/-- The nested loop of `allExistingInstancesMatch`: the first instance, in
reservation order, whose state code differs from `state`. -/
def firstNonMatching (state : Int) : List Reservation → Option Ec2Instance
  | [] => none
  | r :: rs =>
    match r.instances.find? (fun i => i.state.code ≠ state) with
    | some i => some i
    | none => firstNonMatching state rs

/-- Embeds `allExistingInstancesMatch` (service.go lines 553-568): if some
matching instance is in a state other than `state`, return its id and
`false` ("already exists"); otherwise `(nil, true)` ("not existing"). -/
def allExistingInstancesMatch (instances : DescribeInstancesOutput) (state : Int) :
    Option String × Bool :=
  match instances.reservations with
  | some rs =>
    match firstNonMatching state rs with
    | some i => (some i.instanceId, false)
    | none => (none, true)
  | none => (none, true)

/-- Provider-side instance as the existence query sees it: the two tags the
filter matches on, plus the state code. -/
structure TaggedInstance where
  instanceId : String
  tagName : String
  tagCluster : String
  stateCode : Int
deriving DecidableEq, Repr

/-- The `DescribeInstances` call of `runMachine` with its two filters
(`tag:Name` = name AND `tag:Cluster` = clusterName): the provider returns
the matching instances, grouped in one reservation, and a nil
`Reservations` field when nothing matches. -/
def describeInstancesByTags (world : List TaggedInstance) (name clusterName : String) :
    DescribeInstancesOutput :=
  let matching := world.filter (fun i => i.tagName = name && i.tagCluster = clusterName)
  if matching.isEmpty then { reservations := none }
  else
    { reservations :=
        some [{ instances := matching.map (fun i => { instanceId := i.instanceId, state := { code := i.stateCode } }) }] }

/-- The complete existence check of `runMachine`: query by the two tags,
then treat the name as existing unless every matching instance is
terminated.  The Bool is the second component of
`allExistingInstancesMatch`, i.e. `true` means "not existing". -/
def instanceNotExisting (world : List TaggedInstance) (name clusterName : String) : Bool :=
  (allExistingInstancesMatch (describeInstancesByTags world name clusterName) EC2TerminatedState).2

/-! ## KMS key (`src/resources/aws/kms.go`) -/

inductive KMSCall where
  | createKey
  | createAlias (aliasName : String)
  | describeKey (keyId : String)
  | deleteAlias (aliasName : String)
  | scheduleKeyDeletion (keyId : String) (pendingWindowInDays : Int)
deriving DecidableEq, Repr

structure KMSKey where
  Name : String
  arn : String
deriving DecidableEq, Repr

def KMSKey.fullAlias (kk : KMSKey) : String := "alias/" ++ kk.Name

/-- Embeds `KMSKey.CreateIfNotExists` (kms.go lines 26-28): an unconditional
rejection — `return false, fmt.Errorf("KMS keys cannot be reused")` — that
touches neither the receiver, nor the provider state `s`, and makes no
provider call (empty trace). -/
def KMSKey.CreateIfNotExists {σ : Type} (kk : KMSKey) (s : σ) :
    (Bool × Option AErr) × KMSKey × σ × List KMSCall :=
  ((false, some (.providerMsg "KMS keys cannot be reused")), kk, s, [])

/-! ## ELB (`src/resources/aws/elb.go`; `src/unnamed/part_000` differs only
in the listener ports/protocol, not in the `CreateIfNotExists` logic). -/

structure Listener where
  instancePort : Int
  loadBalancerPort : Int
  protocol : String
deriving DecidableEq, Repr

structure CreateLoadBalancerInput where
  loadBalancerName : String
  listeners : List Listener
  availabilityZones : List String
  securityGroups : List String
deriving DecidableEq, Repr

/-- Modelled from the spec: the constant `awsclient.ELBAlreadyExists`
(package client/aws, which is not under src/) — the provider's
already-exists error string for load balancers, compared against
`err.Error()` by `ELB.CreateIfNotExists`. -/
def ELBAlreadyExists : String := "DuplicateLoadBalancerName"

structure ELBClient (σ : Type) where
  createLoadBalancer : σ → CreateLoadBalancerInput → Except AErr σ

structure ELB (σ : Type) where
  Name : String
  AZ : String
  SecurityGroup : String
  Tags : List String
  Client : Option (ELBClient σ)

/-- The `CreateLoadBalancerInput` built by `ELB.CreateOrFail` (fixed
listener 8080/8080 HTTP, single AZ, hardcoded security group). -/
def ELB.createInput {σ : Type} (lb : ELB σ) : CreateLoadBalancerInput :=
  { loadBalancerName := lb.Name
    listeners := [{ instancePort := 8080, loadBalancerPort := 8080, protocol := "HTTP" }]
    availabilityZones := [lb.AZ]
    securityGroups := ["sg-cb382ca3"] }

def ELB.CreateOrFail {σ : Type} (lb : ELB σ) (s : σ) :
    Option AErr × σ × List CreateLoadBalancerInput :=
  match lb.Client with
  | none => (some .clientNotInitialized, s, [])
  | some c =>
    match c.createLoadBalancer s lb.createInput with
    | .error e => (some e, s, [lb.createInput])
    | .ok s2 => (none, s2, [lb.createInput])

/-- Embeds `ELB.CreateIfNotExists` (elb.go lines 19-33): call
`CreateOrFail`; an error whose string equals `ELBAlreadyExists` becomes
`(false, nil)`, any other error is surfaced, success is `(true, nil)`. -/
def ELB.CreateIfNotExists {σ : Type} (lb : ELB σ) (s : σ) :
    (Bool × Option AErr) × σ × List CreateLoadBalancerInput :=
  match lb.Client with
  | none => ((false, some .clientNotInitialized), s, [])
  | some _ =>
    match lb.CreateOrFail s with
    | (some e, s2, tr) =>
      if e.errorString = ELBAlreadyExists then ((false, none), s2, tr)
      else ((false, some e), s2, tr)
    | (none, s2, tr) => ((true, none), s2, tr)

/-! ## Machine provisioning (`runMachines` in `src/service/create/service.go`
lines 494-549; the older version in `src/unnamed/part_002` lines 333-371 has
the same list selection and the same length-mismatch guard). -/

def prefixMaster : String := "master"

def prefixWorker : String := "worker"

/-- Generic machine declaration (`node.Node`), opaque to the scheduler. -/
structure GNode where
  payload : String
deriving DecidableEq, Repr

/-- AWS machine declaration (`awsinfo.Node`). -/
structure ANode where
  imageID : String
  instanceType : String
deriving DecidableEq, Repr

/-- The per-role machine lists of the cluster spec
(`cluster.Spec.Cluster.Masters/Workers` and `cluster.Spec.AWS.Masters/Workers`). -/
structure ClusterMachines where
  masters : List GNode
  workers : List GNode
  awsMasters : List ANode
  awsWorkers : List ANode
deriving DecidableEq, Repr

/-- The `switch input.prefix` at the top of `runMachines`: select the two
machine lists for the role; any other role selects nothing (the Go switch
has no default in service.go, leaving both slices nil). -/
def selectMachines (role : String) (c : ClusterMachines) : List GNode × List ANode :=
  if role = prefixMaster then (c.masters, c.awsMasters)
  else if role = prefixWorker then (c.workers, c.awsWorkers)
  else ([], [])

/-- Result of one `runMachine` call: `(created, instanceID, error)`. -/
structure RunMachineRes where
  created : Bool
  instanceID : String
  err : Option AErr
deriving DecidableEq, Repr

/-- The mismatch error built by `runMachines` when the generic and AWS
machine lists differ in length. -/
def mismatchErr (role : String) (nMachines nAwsMachines : Nat) : AErr :=
  .providerMsg ("mismatched number of " ++ role ++ " machines in the spec and aws sections: "
    ++ toString nMachines ++ " != " ++ toString nAwsMachines)

/-- The `for i := 0; i < len(machines); i++` loop of `runMachines`: run the
machine at each index (`oracle` gives the outcome of `s.runMachine` for that
index), abort with `(false, nil, err)` on the first error, otherwise
accumulate `anyCreated` and the instance ids.  The second component records
which indices were actually provisioned. -/
def runMachinesLoop (oracle : Nat → RunMachineRes) :
    Nat → Nat → (Bool × List String × Option AErr) × List Nat
  | _, 0 => ((false, [], none), [])
  | i, Nat.succ k =>
    let r := oracle i
    match r.err with
    | some e => ((false, [], some e), [i])
    | none =>
      match runMachinesLoop oracle (i + 1) k with
      | ((anyCreated, ids, none), calls) =>
        ((r.created || anyCreated, r.instanceID :: ids, none), i :: calls)
      | ((_, _, some e), calls) => ((false, [], some e), i :: calls)

/-- Embeds `Service.runMachines`: select the role's lists, fail with the
mismatch error before any `runMachine` call if their lengths differ,
otherwise run the loop.  Returns the Go results plus the list of indices
for which an instance-creation (`runMachine`) call was issued. -/
def runMachines (role : String) (c : ClusterMachines) (oracle : Nat → RunMachineRes) :
    (Bool × List String × Option AErr) × List Nat :=
  let (machines, awsMachines) := selectMachines role c
  if machines.length ≠ awsMachines.length then
    ((false, [], some (mismatchErr role machines.length awsMachines.length)), [])
  else runMachinesLoop oracle 0 machines.length

/-! ## The create-event handler (`AddFunc` in `Service.Boot`,
`src/service/create/service.go` lines 178-343). -/

/-- Outcome of one create-event run: an early `return` after logging an
error at the named stage, the inconsistent-cluster condition, or the final
"cluster processed" success log. -/
inductive Outcome where
  | aborted (stage : String)
  | inconsistent
  | success
deriving DecidableEq, Repr

def Outcome.isAborted : Outcome → Bool
  | .aborted _ => true
  | _ => false

/-- Embeds `validateIDs` (service.go lines 718-729). -/
def validateIDs (ids : List String) : Bool :=
  if ids.length = 0 then false
  else ids.all (fun id => id ≠ "")

/-- Stage outcomes feeding one `AddFunc` run: every provider/collaborator
interaction of the handler, in source order.  The two `runMachines` calls
are taken from the embedded `runMachines` itself, so the input carries the
cluster machine lists and the per-index `runMachine` oracles. -/
structure AddRunInput where
  namespaceErr : Option AErr
  accountIDErr : Option AErr
  keyPairRes : Except AErr Bool
  certsErr : Option AErr
  kmsKeyErr : Option AErr
  tlsAssetsErr : Option AErr
  policyErr : Option AErr
  bucketRes : Except AErr Bool
  machines : ClusterMachines
  mastersOracle : Nat → RunMachineRes
  lbRes : Except AErr Bool
  workersOracle : Nat → RunMachineRes

/-- The masters `runMachines` call of the run. -/
def AddRunInput.mastersRun (inp : AddRunInput) : (Bool × List String × Option AErr) × List Nat :=
  runMachines prefixMaster inp.machines inp.mastersOracle

/-- The workers `runMachines` call of the run. -/
def AddRunInput.workersRun (inp : AddRunInput) : (Bool × List String × Option AErr) × List Nat :=
  runMachines prefixWorker inp.machines inp.workersOracle

/-- Embeds the control flow of `AddFunc` (service.go lines 178-343):
namespace, account id, keypair, certificates, KMS key (error recorded, not
aborting), TLS encoding, policy (error recorded, not aborting), bucket,
masters (error logged, not aborting — but failing `validateIDs` aborts),
ELB, workers, then the final consistency check: if any master or worker was
newly created while the KMS-key or policy stage errored, the cluster is
flagged inconsistent; otherwise the run succeeds. -/
def addFuncRun (inp : AddRunInput) : Outcome :=
  if inp.namespaceErr.isSome then .aborted "createClusterNamespace"
  else if inp.accountIDErr.isSome then .aborted "setAccountID"
  else
    match inp.keyPairRes with
    | .error _ => .aborted "keyPair"
    | .ok _ =>
      if inp.certsErr.isSome then .aborted "getCertsFromSecrets"
      else if inp.tlsAssetsErr.isSome then .aborted "encodeTLSAssets"
      else
        match inp.bucketRes with
        | .error _ => .aborted "bucket"
        | .ok _ =>
          let ((anyMastersCreated, masterIDs, _mErr), _) := inp.mastersRun
          if !validateIDs masterIDs then .aborted "validateMasterIDs"
          else
            match inp.lbRes with
            | .error _ => .aborted "elb"
            | .ok _ =>
              match inp.workersRun with
              | ((_, _, some _), _) => .aborted "workers"
              | ((anyWorkersCreated, _, none), _) =>
                if (anyMastersCreated || anyWorkersCreated)
                    && (inp.kmsKeyErr.isSome || inp.policyErr.isSome)
                then .inconsistent
                else .success

/-! ## The delete-event handlers (`DeleteFunc` in `Service.Boot`:
current version `src/service/create/service.go` lines 344-452, older
version `src/unnamed/part_002` lines 221-264). -/

/-- One recorded teardown stage: its name and the error it logged (none =
the stage succeeded). -/
structure StageOutcome where
  stage : String
  err : Option AErr
deriving DecidableEq, Repr

/-- A sequence of teardown stages each written as `if err := ...; err !=
nil { log(err); return }`: execute in order, record each outcome, and stop
after the first failure. -/
def runAbortingStages : List (String × Option AErr) → List StageOutcome
  | [] => []
  | (st, some e) :: _ => [{ stage := st, err := some e }]
  | (st, none) :: rest => { stage := st, err := none } :: runAbortingStages rest

/-- Per-stage errors for the current `DeleteFunc` (service.go). -/
structure DeleteErrsCurrent where
  namespaceErr : Option AErr
  accountIDErr : Option AErr
  mastersErr : Option AErr
  workersErr : Option AErr
  masterObjErr : Option AErr
  workerObjErr : Option AErr
  lbErr : Option AErr
  policyErr : Option AErr
  keyPairErr : Option AErr
deriving DecidableEq, Repr

/-- Embeds the current `DeleteFunc` (service.go lines 344-452): the
namespace-deletion failure is logged WITHOUT returning; every later stage
logs its error and returns, aborting the remaining stages. -/
def deleteFuncRunCurrent (inp : DeleteErrsCurrent) : List StageOutcome :=
  { stage := "deleteClusterNamespace", err := inp.namespaceErr } ::
  runAbortingStages
    [("setAccountID", inp.accountIDErr),
     ("deleteMasters", inp.mastersErr),
     ("deleteWorkers", inp.workersErr),
     ("deleteMasterBucketObject", inp.masterObjErr),
     ("deleteWorkerBucketObject", inp.workerObjErr),
     ("deleteELB", inp.lbErr),
     ("deletePolicy", inp.policyErr),
     ("deleteKeyPair", inp.keyPairErr)]

/-- Per-stage errors for the older `DeleteFunc` (part_002). -/
structure DeleteErrsOld where
  namespaceErr : Option AErr
  policyErr : Option AErr
  roleRemoveErr : Option AErr
  roleErr : Option AErr
  profileErr : Option AErr
  lbErr : Option AErr
  sgErr : Option AErr
deriving DecidableEq, Repr

/-- Embeds the older `DeleteFunc` (part_002 lines 221-264): the
namespace-deletion failure logs and returns; after it, the six teardown
stages (policy, role-from-profile, role, instance profile, load balancer,
security group) each log their own error and all execute unconditionally. -/
def deleteFuncRunOld (inp : DeleteErrsOld) : List StageOutcome :=
  if inp.namespaceErr.isSome then
    [{ stage := "deleteClusterNamespace", err := inp.namespaceErr }]
  else
    [{ stage := "deleteClusterNamespace", err := none },
     { stage := "deletePolicy", err := inp.policyErr },
     { stage := "removeRoleFromInstanceProfile", err := inp.roleRemoveErr },
     { stage := "deleteRole", err := inp.roleErr },
     { stage := "deleteInstanceProfile", err := inp.profileErr },
     { stage := "deleteLoadBalancer", err := inp.lbErr },
     { stage := "deleteSecurityGroup", err := inp.sgErr }]

/-! ## Route53 hosted zone (`src/resources/aws/hosted_zone.go`)

The Route53 provider is abstracted as a record of response functions over
an explicit state type `σ`; every call the embedded code makes is also
recorded in a trace. -/

/-- A hosted zone as the provider returns it; `name` is the proper DNS name
with the provider-appended trailing dot. -/
structure R53Zone where
  id : String
  name : String
deriving DecidableEq, Repr

inductive R53Call where
  | listHostedZonesByName (dnsName : String)
  | createHostedZone (name comment : String) (privateZone : Bool)
  | deleteHostedZone (id : String)
deriving DecidableEq, Repr

/-- Route53 client behaviour.  `listHostedZonesByName` is the
`ListHostedZonesByName` call with `MaxItems = "1"` folded into the
response; `createHostedZone` carries the name, comment and private flag of
the `CreateHostedZoneInput` (the wall-clock `CallerReference` is elided)
and returns the created zone plus the successor provider state. -/
structure R53Client (σ : Type) where
  listHostedZonesByName : σ → String → Except AErr (List R53Zone)
  createHostedZone : σ → String → String → Bool → Except AErr (R53Zone × σ)

structure HostedZone (σ : Type) where
  Name : String
  id : String
  Private : Bool
  Comment : String
  Client : R53Client σ

/-- Go `strings.TrimRight(s, ".")`: remove every trailing dot. -/
def trimRightDot (s : String) : String :=
  String.mk (s.data.reverse.dropWhile (fun c => c = '.')).reverse

/-- Embeds `HostedZone.findExisting` (hosted_zone.go lines 96-123): list by
name; zero results, or a first result whose dot-trimmed name differs from
the requested name, are both the NotFound error; otherwise the first
result is returned. -/
def HostedZone.findExisting {σ : Type} (hz : HostedZone σ) (s : σ) :
    Except AErr R53Zone × List R53Call :=
  let tr := [R53Call.listHostedZonesByName hz.Name]
  match hz.Client.listHostedZonesByName s hz.Name with
  | .error e => (.error e, tr)
  | .ok hostedZones =>
    match hostedZones with
    | [] => (.error (.notFound "hosted zone" hz.Name), tr)
    | hostedZone :: _ =>
      if trimRightDot hostedZone.name ≠ hz.Name then
        (.error (.notFound "hosted zone" hz.Name), tr)
      else (.ok hostedZone, tr)

/-- Embeds `HostedZone.checkIfExists` (hosted_zone.go lines 125-136): a
NotFound result from `findExisting` is `(false, nil)`, another error is
surfaced, and on success the receiver's id is populated from the found
zone. -/
def HostedZone.checkIfExists {σ : Type} (hz : HostedZone σ) (s : σ) :
    (Bool × Option AErr) × HostedZone σ × List R53Call :=
  match hz.findExisting s with
  | (.error e, tr) =>
    if e.isNotFound then ((false, none), hz, tr) else ((false, some e), hz, tr)
  | (.ok z, tr) => ((true, none), { hz with id := z.id }, tr)

/-- Embeds `HostedZone.CreateOrFail` (hosted_zone.go lines 20-39). -/
def HostedZone.CreateOrFail {σ : Type} (hz : HostedZone σ) (s : σ) :
    Option AErr × HostedZone σ × σ × List R53Call :=
  let tr := [R53Call.createHostedZone hz.Name hz.Comment hz.Private]
  match hz.Client.createHostedZone s hz.Name hz.Comment hz.Private with
  | .error e => (some e, hz, s, tr)
  | .ok (z, s2) => (none, { hz with id := z.id }, s2, tr)

/-- Embeds `HostedZone.CreateIfNotExists` (hosted_zone.go lines 41-56). -/
def HostedZone.CreateIfNotExists {σ : Type} (hz : HostedZone σ) (s : σ) :
    (Bool × Option AErr) × HostedZone σ × σ × List R53Call :=
  match hz.checkIfExists s with
  | ((_, some e), hz1, tr1) => ((false, some e), hz1, s, tr1)
  | ((true, none), hz1, tr1) => ((false, none), hz1, s, tr1)
  | ((false, none), hz1, tr1) =>
    match hz1.CreateOrFail s with
    | (some e, hz2, s2, tr2) => ((false, some e), hz2, s2, tr1 ++ tr2)
    | (none, hz2, s2, tr2) => ((true, none), hz2, s2, tr1 ++ tr2)

/-- Embeds `HostedZone.GetID` (hosted_zone.go lines 92-94). -/
def HostedZone.GetID {σ : Type} (hz : HostedZone σ) : String := hz.id

/-! ## VPC (`src/resources/aws/vpc.go`) -/

structure Ec2Vpc where
  vpcId : String
deriving DecidableEq, Repr

inductive EC2VCall where
  | describeVpcsByName (name : String)
  | createVpc (cidrBlock : String)
  | waitUntilVpcAvailable (vpcId : String)
  | createTags (vpcId name : String)
  | modifyVpcAttributeDnsHostnames (vpcId : String)
  | modifyVpcAttributeDnsSupport (vpcId : String)
  | deleteVpc (vpcId : String)
deriving DecidableEq, Repr

/-- EC2 client behaviour for VPCs. `describeVpcsByName` is `DescribeVpcs`
with the `tag:Name` filter folded into the response. -/
structure EC2VpcClient (σ : Type) where
  describeVpcsByName : σ → String → Except AErr (List Ec2Vpc)
  createVpc : σ → String → Except AErr (Ec2Vpc × σ)
  waitUntilVpcAvailable : σ → String → Except AErr σ
  createTags : σ → String → String → Except AErr σ
  modifyVpcAttributeDnsHostnames : σ → String → Except AErr σ
  modifyVpcAttributeDnsSupport : σ → String → Except AErr σ

structure VPC (σ : Type) where
  CidrBlock : String
  Name : String
  id : String
  Client : EC2VpcClient σ

/-- Embeds `VPC.findExisting` (vpc.go lines 18-38): describe by the name
tag; fewer than one result is the NotFound error, otherwise the first
result is returned. -/
def VPC.findExisting {σ : Type} (v : VPC σ) (s : σ) :
    Except AErr Ec2Vpc × List EC2VCall :=
  let tr := [EC2VCall.describeVpcsByName v.Name]
  match v.Client.describeVpcsByName s v.Name with
  | .error e => (.error e, tr)
  | .ok vpcs =>
    match vpcs with
    | [] => (.error (.notFound "vpc" v.Name), tr)
    | vpc :: _ => (.ok vpc, tr)

/-- Embeds `VPC.checkIfExists` (vpc.go lines 40-49); unlike the hosted
zone, the found VPC's id is discarded here. -/
def VPC.checkIfExists {σ : Type} (v : VPC σ) (s : σ) :
    (Bool × Option AErr) × List EC2VCall :=
  match v.findExisting s with
  | (.error e, tr) => if e.isNotFound then ((false, none), tr) else ((false, some e), tr)
  | (.ok _, tr) => ((true, none), tr)

/-- Embeds `VPC.CreateOrFail` (vpc.go lines 68-121): create with the CIDR
block, wait until available, tag with the name, enable both DNS attributes,
then record the id on the receiver. -/
def VPC.CreateOrFail {σ : Type} (v : VPC σ) (s : σ) :
    Option AErr × VPC σ × σ × List EC2VCall :=
  match v.Client.createVpc s v.CidrBlock with
  | .error e => (some e, v, s, [.createVpc v.CidrBlock])
  | .ok (vpc, s1) =>
    let vpcID := vpc.vpcId
    match v.Client.waitUntilVpcAvailable s1 vpcID with
    | .error e => (some e, v, s1, [.createVpc v.CidrBlock, .waitUntilVpcAvailable vpcID])
    | .ok s2 =>
      match v.Client.createTags s2 vpcID v.Name with
      | .error e =>
        (some e, v, s2,
         [.createVpc v.CidrBlock, .waitUntilVpcAvailable vpcID, .createTags vpcID v.Name])
      | .ok s3 =>
        match v.Client.modifyVpcAttributeDnsHostnames s3 vpcID with
        | .error e =>
          (some e, v, s3,
           [.createVpc v.CidrBlock, .waitUntilVpcAvailable vpcID, .createTags vpcID v.Name,
            .modifyVpcAttributeDnsHostnames vpcID])
        | .ok s4 =>
          match v.Client.modifyVpcAttributeDnsSupport s4 vpcID with
          | .error e =>
            (some e, v, s4,
             [.createVpc v.CidrBlock, .waitUntilVpcAvailable vpcID, .createTags vpcID v.Name,
              .modifyVpcAttributeDnsHostnames vpcID, .modifyVpcAttributeDnsSupport vpcID])
          | .ok s5 =>
            (none, { v with id := vpcID }, s5,
             [.createVpc v.CidrBlock, .waitUntilVpcAvailable vpcID, .createTags vpcID v.Name,
              .modifyVpcAttributeDnsHostnames vpcID, .modifyVpcAttributeDnsSupport vpcID])

/-- Embeds `VPC.CreateIfNotExists` (vpc.go lines 51-66). -/
def VPC.CreateIfNotExists {σ : Type} (v : VPC σ) (s : σ) :
    (Bool × Option AErr) × VPC σ × σ × List EC2VCall :=
  match v.checkIfExists s with
  | ((_, some e), tr1) => ((false, some e), v, s, tr1)
  | ((true, none), tr1) => ((false, none), v, s, tr1)
  | ((false, none), tr1) =>
    match v.CreateOrFail s with
    | (some e, v2, s2, tr2) => ((false, some e), v2, s2, tr1 ++ tr2)
    | (none, v2, s2, tr2) => ((true, none), v2, s2, tr1 ++ tr2)

/-- Embeds `VPC.GetID` (vpc.go lines 138-149): return the recorded id if
set, otherwise resolve it by the name-based lookup. -/
def VPC.GetID {σ : Type} (v : VPC σ) (s : σ) : Except AErr String :=
  if v.id ≠ "" then .ok v.id
  else
    match v.findExisting s with
    | (.error e, _) => .error e
    | (.ok vpc, _) => .ok vpc.vpcId

/-! ## Concrete instantiations used by the witness and counterexample
theorems below. -/

/-- A cluster spec with one master declared generically but zero masters in
the AWS section, and the same mismatch for workers. -/
def mismatchedMachines : ClusterMachines :=
  { masters := [{ payload := "m0" }], awsMasters := []
    workers := [{ payload := "w0" }], awsWorkers := [] }

/-- An oracle under which every `runMachine` call would succeed without
creating anything. -/
def idleOracle : Nat → RunMachineRes :=
  fun _ => { created := false, instanceID := "i-0", err := none }

/-- A create-event run where the KMS-key stage failed, every other stage
succeeded, and the single master instance was newly created. -/
def inconsistentAddInput : AddRunInput :=
  { namespaceErr := none
    accountIDErr := none
    keyPairRes := .ok true
    certsErr := none
    kmsKeyErr := some (.providerMsg "kms failed")
    tlsAssetsErr := none
    policyErr := none
    bucketRes := .ok true
    machines :=
      { masters := [{ payload := "m0" }]
        awsMasters := [{ imageID := "ami-1", instanceType := "m3.large" }]
        workers := [], awsWorkers := [] }
    mastersOracle := fun _ => { created := true, instanceID := "i-1", err := none }
    lbRes := .ok true
    workersOracle := idleOracle }

/-- A delete-event run (current DeleteFunc) where the delete-workers stage
fails and everything before it succeeds. -/
def workersFailDeleteErrs : DeleteErrsCurrent :=
  { namespaceErr := none, accountIDErr := none, mastersErr := none
    workersErr := some (.providerMsg "boom")
    masterObjErr := none, workerObjErr := none, lbErr := none
    policyErr := none, keyPairErr := none }

/-- A delete-event run (older DeleteFunc) where teardown stage 3 of 6
(`deleteRole`) fails and every other stage succeeds. -/
def stage3FailDeleteErrs : DeleteErrsOld :=
  { namespaceErr := none, policyErr := none, roleRemoveErr := none
    roleErr := some (.providerMsg "stage3 boom")
    profileErr := none, lbErr := none, sgErr := none }

/-- An ELB client whose creation call always reports the already-exists
error. -/
def elbDupClient : ELBClient Unit :=
  { createLoadBalancer := fun _ _ => .error (.providerMsg ELBAlreadyExists) }

def elbDup : ELB Unit :=
  { Name := "cluster-1", AZ := "eu-west-1a", SecurityGroup := "", Tags := []
    Client := some elbDupClient }

/-- A Route53 provider whose state is the list of existing zones, in the
order the listing returns them: listing returns the state, creation
appends a fresh zone named after the request with the provider's trailing
dot. -/
def r53ListClient : R53Client (List R53Zone) :=
  { listHostedZonesByName := fun s _ => .ok s
    createHostedZone := fun s n _ _ =>
      .ok ({ id := "Z1", name := n ++ "." }, s ++ [{ id := "Z1", name := n ++ "." }]) }

def hzFresh : HostedZone (List R53Zone) :=
  { Name := "aws.example.com", id := "", Private := false, Comment := "cmt"
    Client := r53ListClient }

/-- An EC2 provider for VPCs whose state is the tagged VPC id, if any:
describing by name returns the tagged VPC, creation returns a fresh VPC
without tagging it, and tagging records it. -/
def ec2TagClient : EC2VpcClient (Option String) :=
  { describeVpcsByName := fun s _ =>
      .ok (match s with | none => [] | some id => [{ vpcId := id }])
    createVpc := fun s _ => .ok ({ vpcId := "vpc-1" }, s)
    waitUntilVpcAvailable := fun s _ => .ok s
    createTags := fun _ id _ => .ok (some id)
    modifyVpcAttributeDnsHostnames := fun s _ => .ok s
    modifyVpcAttributeDnsSupport := fun s _ => .ok s }

def vpcFresh : VPC (Option String) :=
  { CidrBlock := "10.0.0.0/16", Name := "cluster-vpc", id := "", Client := ec2TagClient }

/-- A Route53 client that never finds and never creates anything. -/
def r53EmptyClient : R53Client Unit :=
  { listHostedZonesByName := fun _ _ => .ok []
    createHostedZone := fun _ _ _ _ => .error (.providerMsg "create refused") }

def hzUnknown : HostedZone Unit :=
  { Name := "example.com", id := "", Private := false, Comment := "c"
    Client := r53EmptyClient }

end AwsOperator
namespace AwsOperator

/-! ### Helper lemmas -/

theorem goSplitN_length_le (s : String) (sep : Char) (n : Nat) (hn : 0 < n) :
    (goSplitN s sep n).length ≤ n := by
  simp only [goSplitN]
  split
  · assumption
  · next h =>
    simp only [List.length_append, List.length_take, List.length_cons, List.length_nil]
    omega

theorem getD_append_singleton (l : List String) (x d : String) :
    (l ++ [x]).getD l.length d = x := by
  induction l with
  | nil => rfl
  | cons a t ih => simp [List.getD]

theorem drop_eq_getD_singleton :
    ∀ (l : List String) (n : Nat), l.length = n + 1 → l.drop n = [l.getD n ""]
  | [], n, h => by simp at h
  | [a], 0, _ => rfl
  | [a], n + 1, h => by simp at h
  | a :: b :: t, 0, h => by simp at h
  | a :: b :: t, n + 1, h => by
    have h2 : (b :: t).length = n + 1 := by simpa using h
    simpa [List.getD] using drop_eq_getD_singleton (b :: t) n h2

theorem intercalate_singleton (sep x : String) : String.intercalate sep [x] = x := by
  simp [String.intercalate, String.intercalate.go]

/-! ### C8 -/

/-- C8: for every KMSKey and in every provider state, CreateIfNotExists
returns created=false with the fixed non-nil "KMS keys cannot be reused"
error, leaves the receiver and the provider state unchanged, and makes no
provider call. -/
theorem kms_create_if_not_exists_rejects :
    ∀ (σ : Type) (kk : KMSKey) (s : σ),
      (KMSKey.CreateIfNotExists kk s).1
          = (false, some (AErr.providerMsg "KMS keys cannot be reused")) ∧
      (KMSKey.CreateIfNotExists kk s).2.1 = kk ∧
      (KMSKey.CreateIfNotExists kk s).2.2.1 = s ∧
      (KMSKey.CreateIfNotExists kk s).2.2.2 = [] := by
  intro σ kk s
  exact ⟨rfl, rfl, rfl, rfl⟩

/-! ### C6 -/

/-- C6: whenever the provider create call fails with the already-exists
error string, ELB.CreateIfNotExists returns (false, nil): the load
balancer is treated as reused and the condition is not surfaced. -/
theorem elb_already_exists_reused :
    ∀ (σ : Type) (lb : ELB σ) (c : ELBClient σ) (s : σ) (e : AErr),
      lb.Client = some c →
      c.createLoadBalancer s lb.createInput = .error e →
      e.errorString = ELBAlreadyExists →
      lb.CreateIfNotExists s = ((false, none), s, [lb.createInput]) := by
  intro σ lb c s e hc hcreate hstr
  simp [ELB.CreateIfNotExists, ELB.CreateOrFail, hc, hcreate, hstr]

/-- C6 witness: a concrete client that reports already-exists makes the
embedded CreateIfNotExists report (false, nil). -/
theorem elb_already_exists_reused_witness :
    elbDup.CreateIfNotExists () = ((false, none), (), [elbDup.createInput]) :=
  elb_already_exists_reused Unit elbDup elbDupClient () (AErr.providerMsg ELBAlreadyExists)
    rfl rfl rfl

end AwsOperator
namespace AwsOperator

/-! ### C4 -/

/-- C4: an input with fewer than 6 dot-separated segments makes
hostedZoneName panic with an index-out-of-range runtime error — the
struct literal indexes tmp[5] before the length check — so the
malformed-key error branch is unreachable: on no input does
hostedZoneName return the malformed-key (or any) error. -/
theorem hostedZoneName_short_input_panics :
    hostedZoneName "a.b.c" = GoStringResult.panicked "runtime error: index out of range" ∧
    ∀ domain : String, (hostedZoneName domain).isErrored = false := by
  refine ⟨by decide, ?_⟩
  intro domain
  have hle : (goSplitN domain '.' 6).length ≤ 6 :=
    goSplitN_length_le domain '.' 6 (by omega)
  simp only [hostedZoneName]
  by_cases hlt : (goSplitN domain '.' 6).length < 6
  · simp [hlt, GoStringResult.isErrored]
  · have h6 : (goSplitN domain '.' 6).length = 6 := by omega
    simp [hlt, h6, GoStringResult.isErrored]

/-! ### C5 -/

/-- C5 counterexample: on the claim's own example input, hostedZoneName
returns "aws.giantswarm.io", while stripping the two leftmost labels (the
claim's description of the algorithm) would keep
"g8s.eu-west-1.adidas.aws.giantswarm.io" — the two disagree, so the claim
as stated is false. -/
theorem hostedZoneName_two_label_counterexample :
    hostedZoneName "etcd.pbmva.g8s.eu-west-1.adidas.aws.giantswarm.io"
        = GoStringResult.ok "aws.giantswarm.io" ∧
    specStripTwoLabels "etcd.pbmva.g8s.eu-west-1.adidas.aws.giantswarm.io"
        = "g8s.eu-west-1.adidas.aws.giantswarm.io" ∧
    hostedZoneName "etcd.pbmva.g8s.eu-west-1.adidas.aws.giantswarm.io"
        ≠ GoStringResult.ok
            (specStripTwoLabels "etcd.pbmva.g8s.eu-west-1.adidas.aws.giantswarm.io") := by
  refine ⟨by decide, by decide, by decide⟩

/-- C5 amended: hostedZoneName strips the FIVE leftmost dot-separated
labels, keeping the remainder (everything after the fifth dot) intact as
one string; on the example input it returns "aws.giantswarm.io". -/
theorem hostedZoneName_strips_five_labels :
    (∀ domain : String, 6 ≤ (goSplit domain '.').length →
      hostedZoneName domain
        = GoStringResult.ok (String.intercalate "." ((goSplit domain '.').drop 5))) ∧
    hostedZoneName "etcd.pbmva.g8s.eu-west-1.adidas.aws.giantswarm.io"
        = GoStringResult.ok "aws.giantswarm.io" := by
  refine ⟨?_, by decide⟩
  intro domain h
  simp only [hostedZoneName, goSplitN]
  by_cases hle : (goSplit domain '.').length ≤ 6
  · have h6 : (goSplit domain '.').length = 6 := le_antisymm hle h
    rw [if_pos hle, if_neg (by omega), if_neg (by omega)]
    rw [drop_eq_getD_singleton (goSplit domain '.') 5 (by omega), intercalate_singleton]
  · rw [if_neg hle, show (6 : Nat) - 1 = 5 from rfl]
    have htk : ((goSplit domain '.').take 5).length = 5 := by
      simp [List.length_take]
      omega
    have hlen :
        ((goSplit domain '.').take 5
          ++ [String.intercalate (String.singleton '.') ((goSplit domain '.').drop 5)]).length
          = 6 := by
      simp [htk]
    rw [if_neg (by omega), if_neg (by omega)]
    have := getD_append_singleton ((goSplit domain '.').take 5)
      (String.intercalate (String.singleton '.') ((goSplit domain '.').drop 5)) ""
    rw [htk] at this
    rw [this]
    rfl

/-- C5 amended witness: the general five-label statement applied at the
example input. -/
theorem hostedZoneName_strips_five_labels_witness :
    hostedZoneName "etcd.pbmva.g8s.eu-west-1.adidas.aws.giantswarm.io"
      = GoStringResult.ok
          (String.intercalate "."
            ((goSplit "etcd.pbmva.g8s.eu-west-1.adidas.aws.giantswarm.io" '.').drop 5)) :=
  hostedZoneName_strips_five_labels.1
    "etcd.pbmva.g8s.eu-west-1.adidas.aws.giantswarm.io" (by decide)

/-! ### C10 -/

/-- C10: for the master and worker roles, a length mismatch between the
generic and the AWS machine lists makes runMachines return the mismatch
error with created=false and an empty id list, before issuing any
runMachine call. -/
theorem run_machines_length_mismatch :
    ∀ (c : ClusterMachines) (oracle : Nat → RunMachineRes),
      (c.masters.length ≠ c.awsMasters.length →
        runMachines prefixMaster c oracle
          = ((false, [], some (mismatchErr prefixMaster c.masters.length c.awsMasters.length)),
             [])) ∧
      (c.workers.length ≠ c.awsWorkers.length →
        runMachines prefixWorker c oracle
          = ((false, [], some (mismatchErr prefixWorker c.workers.length c.awsWorkers.length)),
             [])) := by
  intro c oracle
  constructor
  · intro h
    simp [runMachines, selectMachines, h]
  · intro h
    simp [runMachines, selectMachines, prefixWorker, prefixMaster, h]

/-- C10 witness: with one generic master against zero AWS masters (and the
same for workers), both roles fail with the mismatch error and provision
nothing. -/
theorem run_machines_length_mismatch_witness :
    runMachines prefixMaster mismatchedMachines idleOracle
      = ((false, [], some (mismatchErr prefixMaster 1 0)), []) ∧
    runMachines prefixWorker mismatchedMachines idleOracle
      = ((false, [], some (mismatchErr prefixWorker 1 0)), []) :=
  ⟨(run_machines_length_mismatch mismatchedMachines idleOracle).1 (by decide),
   (run_machines_length_mismatch mismatchedMachines idleOracle).2 (by decide)⟩

end AwsOperator
namespace AwsOperator

/-! ### C3 -/

/-- C3 counterexample: in the current DeleteFunc, a run where only the
delete-workers teardown stage fails stops right there — the bucket-object,
ELB, policy and keypair stages are never executed, contradicting the claim
that a stage failure does not prevent subsequent stages. -/
theorem delete_stage_failure_aborts_counterexample :
    (deleteFuncRunCurrent workersFailDeleteErrs).map StageOutcome.stage
      = ["deleteClusterNamespace", "setAccountID", "deleteMasters", "deleteWorkers"] ∧
    "deleteMasterBucketObject"
        ∉ (deleteFuncRunCurrent workersFailDeleteErrs).map StageOutcome.stage ∧
    "deleteELB" ∉ (deleteFuncRunCurrent workersFailDeleteErrs).map StageOutcome.stage ∧
    "deletePolicy" ∉ (deleteFuncRunCurrent workersFailDeleteErrs).map StageOutcome.stage ∧
    "deleteKeyPair" ∉ (deleteFuncRunCurrent workersFailDeleteErrs).map StageOutcome.stage := by
  refine ⟨by decide, by decide, by decide, by decide, by decide⟩

/-- C3 amended: only the older DeleteFunc (src/unnamed/part_002) is
best-effort — once namespace deletion succeeds, all six teardown stages
execute and each outcome is individually recorded, whatever the stage
errors are (in particular stages 4-6 still run when stage 3 fails).  In
the current DeleteFunc (service.go) a failing teardown stage is logged and
aborts the remaining stages: when the delete-workers stage fails, the run
records exactly the namespace, account-id, masters and workers stages. -/
theorem teardown_stage_continuation :
    (∀ inp : DeleteErrsOld, inp.namespaceErr = none →
      deleteFuncRunOld inp
        = [{ stage := "deleteClusterNamespace", err := none },
           { stage := "deletePolicy", err := inp.policyErr },
           { stage := "removeRoleFromInstanceProfile", err := inp.roleRemoveErr },
           { stage := "deleteRole", err := inp.roleErr },
           { stage := "deleteInstanceProfile", err := inp.profileErr },
           { stage := "deleteLoadBalancer", err := inp.lbErr },
           { stage := "deleteSecurityGroup", err := inp.sgErr }]) ∧
    (∀ inp : DeleteErrsCurrent,
      inp.accountIDErr = none → inp.mastersErr = none → inp.workersErr.isSome →
      (deleteFuncRunCurrent inp).map StageOutcome.stage
        = ["deleteClusterNamespace", "setAccountID", "deleteMasters", "deleteWorkers"]) := by
  constructor
  · intro inp h
    simp [deleteFuncRunOld, h]
  · intro inp h1 h2 h3
    obtain ⟨e, he⟩ := Option.isSome_iff_exists.mp h3
    simp [deleteFuncRunCurrent, runAbortingStages, h1, h2, he]

/-- C3 amended witness: the older DeleteFunc records all six stage outcomes
when stage 3 of 6 (deleteRole) fails, and the current DeleteFunc stops at
the failing delete-workers stage. -/
theorem teardown_stage_continuation_witness :
    deleteFuncRunOld stage3FailDeleteErrs
      = [{ stage := "deleteClusterNamespace", err := none },
         { stage := "deletePolicy", err := none },
         { stage := "removeRoleFromInstanceProfile", err := none },
         { stage := "deleteRole", err := some (AErr.providerMsg "stage3 boom") },
         { stage := "deleteInstanceProfile", err := none },
         { stage := "deleteLoadBalancer", err := none },
         { stage := "deleteSecurityGroup", err := none }] ∧
    (deleteFuncRunCurrent workersFailDeleteErrs).map StageOutcome.stage
      = ["deleteClusterNamespace", "setAccountID", "deleteMasters", "deleteWorkers"] :=
  ⟨teardown_stage_continuation.1 stage3FailDeleteErrs rfl,
   teardown_stage_continuation.2 workersFailDeleteErrs rfl rfl (by decide)⟩

/-! ### C7 -/

/-- Helper for C7: the "not existing" verdict holds exactly when every
instance matching both tags is in the given state. -/
theorem instanceNotExisting_iff (world : List TaggedInstance) (name clusterName : String) :
    instanceNotExisting world name clusterName = true ↔
      ∀ i ∈ world, i.tagName = name → i.tagCluster = clusterName →
        i.stateCode = EC2TerminatedState := by
  simp only [instanceNotExisting, describeInstancesByTags, allExistingInstancesMatch]
  cases hemp :
      (world.filter (fun i => i.tagName = name && i.tagCluster = clusterName)).isEmpty with
  | true =>
    have hnil := List.isEmpty_iff.mp hemp
    rw [List.filter_eq_nil_iff] at hnil
    rw [if_pos rfl]
    constructor
    · intro _ i hi hn hc
      exact absurd (by simp [hn, hc]) (hnil i hi)
    · intro _
      rfl
  | false =>
    rw [if_neg (by simp)]
    simp only [firstNonMatching]
    set matching := world.filter (fun i => i.tagName = name && i.tagCluster = clusterName)
      with hmdef
    set mapped := matching.map
        (fun i => ({ instanceId := i.instanceId, state := { code := i.stateCode } } : Ec2Instance))
      with hmapdef
    cases hf : mapped.find? (fun i => decide (i.state.code ≠ EC2TerminatedState)) with
    | some i =>
      simp only [hf]
      have hp : i.state.code ≠ EC2TerminatedState := by
        have := List.find?_some hf
        exact of_decide_eq_true this
      have hm : i ∈ mapped := List.mem_of_find?_eq_some hf
      rw [hmapdef] at hm
      obtain ⟨j, hj, hconv⟩ := List.mem_map.mp hm
      have hjw := List.mem_filter.mp (hmdef ▸ hj)
      simp only [Bool.and_eq_true, decide_eq_true_eq] at hjw
      constructor
      · intro hfalse
        cases hfalse
      · intro hall
        exfalso
        apply hp
        have := hall j hjw.1 hjw.2.1 hjw.2.2
        rw [← hconv]
        simpa using this
    | none =>
      simp only [hf]
      have hnone := List.find?_eq_none.mp hf
      constructor
      · intro _ i hi hn hc
        have hmem : i ∈ matching := by
          rw [hmdef]
          exact List.mem_filter.mpr ⟨hi, by simp [hn, hc]⟩
        have : ({ instanceId := i.instanceId, state := { code := i.stateCode } } : Ec2Instance)
            ∈ mapped := by
          rw [hmapdef]
          exact List.mem_map.mpr ⟨i, hmem, rfl⟩
        have := hnone _ this
        simpa using this
      · intro _
        trivial

/-- C7: the existence check (two-tag DescribeInstances filter followed by
allExistingInstancesMatch with the terminated state code 48) reports "not
existing" exactly when every instance matching both tags is terminated,
and "existing" exactly when some matching instance is in a non-terminated
state — so a terminated instance never blocks recreation. -/
theorem terminated_instance_exclusion :
    ∀ (world : List TaggedInstance) (name clusterName : String),
      (instanceNotExisting world name clusterName = true ↔
        ∀ i ∈ world, i.tagName = name → i.tagCluster = clusterName →
          i.stateCode = EC2TerminatedState) ∧
      (instanceNotExisting world name clusterName = false ↔
        ∃ i ∈ world, i.tagName = name ∧ i.tagCluster = clusterName ∧
          i.stateCode ≠ EC2TerminatedState) := by
  intro world name clusterName
  refine ⟨instanceNotExisting_iff world name clusterName, ?_⟩
  rw [← Bool.not_eq_true, instanceNotExisting_iff world name clusterName]
  push_neg
  constructor
  · rintro ⟨i, hi, hn, hc, hs⟩
    exact ⟨i, hi, hn, hc, hs⟩
  · rintro ⟨i, hi, hn, hc, hs⟩
    exact ⟨i, hi, hn, hc, hs⟩

end AwsOperator
namespace AwsOperator

/-! ### C2 -/

/-- C2: in every create-event run that reaches the final consistency check
(no stage aborted the run), if the masters or the workers runMachines call
reported created=true and the KMS-key creation or the policy creation
returned an error, the run's outcome is the Inconsistent condition and
never Success. -/
theorem inconsistency_detection :
    ∀ inp : AddRunInput,
      (addFuncRun inp).isAborted = false →
      (inp.mastersRun.1.1 = true ∨ inp.workersRun.1.1 = true) →
      (inp.kmsKeyErr.isSome ∨ inp.policyErr.isSome) →
      addFuncRun inp = Outcome.inconsistent ∧ addFuncRun inp ≠ Outcome.success := by
  intro inp hreach hcreated herr
  rcases hM : inp.mastersRun with ⟨⟨am, ids, merr⟩, mcalls⟩
  rcases hW : inp.workersRun with ⟨⟨aw, wids, werr⟩, wcalls⟩
  rw [hM, hW] at hcreated
  simp only at hcreated
  have key : addFuncRun inp = Outcome.inconsistent := by
    by_cases h1 : inp.namespaceErr.isSome
    · exfalso
      simp [addFuncRun, h1, Outcome.isAborted] at hreach
    by_cases h2 : inp.accountIDErr.isSome
    · exfalso
      simp [addFuncRun, h1, h2, Outcome.isAborted] at hreach
    rcases h3 : inp.keyPairRes with e | kpc
    · exfalso
      simp [addFuncRun, h1, h2, h3, Outcome.isAborted] at hreach
    by_cases h4 : inp.certsErr.isSome
    · exfalso
      simp [addFuncRun, h1, h2, h3, h4, Outcome.isAborted] at hreach
    by_cases h5 : inp.tlsAssetsErr.isSome
    · exfalso
      simp [addFuncRun, h1, h2, h3, h4, h5, Outcome.isAborted] at hreach
    rcases h6 : inp.bucketRes with e | bc
    · exfalso
      simp [addFuncRun, h1, h2, h3, h4, h5, h6, Outcome.isAborted] at hreach
    by_cases h7 : validateIDs ids = true
    · rcases h8 : inp.lbRes with e | lbc
      · exfalso
        simp [addFuncRun, h1, h2, h3, h4, h5, h6, h7, h8, hM, Outcome.isAborted] at hreach
      rcases werr with _ | e
      · have hcond : (am || aw) = true := by
          rcases hcreated with hl | hr
          · simp [hl]
          · simp [hr]
        have hcond2 : (inp.kmsKeyErr.isSome || inp.policyErr.isSome) = true := by
          rcases herr with hl | hr
          · simp [hl]
          · simp [hr]
        simp [addFuncRun, h1, h2, h3, h4, h5, h6, h7, h8, hM, hW, hcond, hcond2]
      · exfalso
        simp [addFuncRun, h1, h2, h3, h4, h5, h6, h7, h8, hM, hW, Outcome.isAborted] at hreach
    · exfalso
      simp [addFuncRun, h1, h2, h3, h4, h5, h6, h7, hM, Outcome.isAborted] at hreach
  exact ⟨key, by rw [key]; intro hcontra; cases hcontra⟩

/-- C2 witness: a concrete run with a newly created master and a failed
KMS-key stage ends Inconsistent, not Success. -/
theorem inconsistency_detection_witness :
    addFuncRun inconsistentAddInput = Outcome.inconsistent ∧
    addFuncRun inconsistentAddInput ≠ Outcome.success :=
  inconsistency_detection inconsistentAddInput (by decide) (Or.inl (by decide))
    (Or.inl (by decide))

end AwsOperator
namespace AwsOperator

/-! ### C9 -/

/-- C9: given that the provider listing call succeeds, findExisting returns
the NotFound error exactly when the listing returned zero zones or the
first zone's name, after stripping the trailing dot, differs from the
requested name; otherwise it returns the first zone, and checkIfExists
then reports existence and records the zone's id. -/
theorem hosted_zone_not_found_semantics :
    ∀ (σ : Type) (hz : HostedZone σ) (s : σ) (zones : List R53Zone),
      hz.Client.listHostedZonesByName s hz.Name = .ok zones →
      ((zones = [] ∨ ∃ z rest, zones = z :: rest ∧ trimRightDot z.name ≠ hz.Name) →
        (hz.findExisting s).1 = .error (.notFound "hosted zone" hz.Name) ∧
        (hz.checkIfExists s).1 = (false, none)) ∧
      (∀ (z : R53Zone) (rest : List R53Zone),
        zones = z :: rest → trimRightDot z.name = hz.Name →
        (hz.findExisting s).1 = .ok z ∧
        hz.checkIfExists s
          = ((true, none), { hz with id := z.id }, [R53Call.listHostedZonesByName hz.Name])) := by
  intro σ hz s zones hlist
  constructor
  · rintro (rfl | ⟨z, rest, rfl, hmiss⟩)
    · constructor
      · simp [HostedZone.findExisting, hlist]
      · simp [HostedZone.checkIfExists, HostedZone.findExisting, hlist, AErr.isNotFound]
    · constructor
      · simp [HostedZone.findExisting, hlist, hmiss]
      · simp [HostedZone.checkIfExists, HostedZone.findExisting, hlist, hmiss, AErr.isNotFound]
  · rintro z rest rfl hmatch
    constructor
    · simp [HostedZone.findExisting, hlist, hmatch]
    · simp [HostedZone.checkIfExists, HostedZone.findExisting, hlist, hmatch]

/-- C9 witness: against a provider with no zones at all, the lookup for a
never-created name yields NotFound and checkIfExists reports (false, nil). -/
theorem hosted_zone_not_found_semantics_witness :
    (hzUnknown.findExisting ()).1 = .error (.notFound "hosted zone" hzUnknown.Name) ∧
    (hzUnknown.checkIfExists ()).1 = (false, none) :=
  (hosted_zone_not_found_semantics Unit hzUnknown () [] rfl).1 (Or.inl rfl)

end AwsOperator
namespace AwsOperator

/-! ### C1 -/

/-- C1: for the reusable resource kinds (hosted zone and VPC), starting
from a provider state with no resource of the given name, and assuming a
successful creation makes the subsequent name-based lookup return the
created resource, two CreateIfNotExists calls with the same
name/parameters yield (true, nil) then (false, nil), both calls resolve to
the same provider id, and the second call issues no creation call (its
trace is the lookup alone). -/
theorem create_if_not_exists_idempotent :
    (∀ (σ : Type) (hz : HostedZone σ) (s0 : σ) (z : R53Zone) (s1 : σ),
      hz.Client.listHostedZonesByName s0 hz.Name = .ok [] →
      hz.Client.createHostedZone s0 hz.Name hz.Comment hz.Private = .ok (z, s1) →
      hz.Client.listHostedZonesByName s1 hz.Name = .ok [z] →
      trimRightDot z.name = hz.Name →
      hz.CreateIfNotExists s0
        = ((true, none), { hz with id := z.id }, s1,
           [R53Call.listHostedZonesByName hz.Name,
            R53Call.createHostedZone hz.Name hz.Comment hz.Private]) ∧
      hz.CreateIfNotExists s1
        = ((false, none), { hz with id := z.id }, s1,
           [R53Call.listHostedZonesByName hz.Name]) ∧
      ({ hz with id := z.id } : HostedZone σ).GetID = z.id ∧
      (∀ (n cm : String) (p : Bool),
        R53Call.createHostedZone n cm p ∉ (hz.CreateIfNotExists s1).2.2.2)) ∧
    (∀ (σ : Type) (v : VPC σ) (s0 : σ) (vpc : Ec2Vpc) (s1 s2 s3 s4 s5 : σ),
      v.id = "" →
      v.Client.describeVpcsByName s0 v.Name = .ok [] →
      v.Client.createVpc s0 v.CidrBlock = .ok (vpc, s1) →
      v.Client.waitUntilVpcAvailable s1 vpc.vpcId = .ok s2 →
      v.Client.createTags s2 vpc.vpcId v.Name = .ok s3 →
      v.Client.modifyVpcAttributeDnsHostnames s3 vpc.vpcId = .ok s4 →
      v.Client.modifyVpcAttributeDnsSupport s4 vpc.vpcId = .ok s5 →
      v.Client.describeVpcsByName s5 v.Name = .ok [vpc] →
      v.CreateIfNotExists s0
        = ((true, none), { v with id := vpc.vpcId }, s5,
           [.describeVpcsByName v.Name, .createVpc v.CidrBlock,
            .waitUntilVpcAvailable vpc.vpcId, .createTags vpc.vpcId v.Name,
            .modifyVpcAttributeDnsHostnames vpc.vpcId,
            .modifyVpcAttributeDnsSupport vpc.vpcId]) ∧
      ({ v with id := vpc.vpcId } : VPC σ).GetID s5 = .ok vpc.vpcId ∧
      v.CreateIfNotExists s5 = ((false, none), v, s5, [.describeVpcsByName v.Name]) ∧
      v.GetID s5 = .ok vpc.vpcId ∧
      (∀ cidr : String, EC2VCall.createVpc cidr ∉ (v.CreateIfNotExists s5).2.2.2)) := by
  constructor
  · intro σ hz s0 z s1 hlist0 hcreate hlist1 hname
    have hfirst :
        hz.CreateIfNotExists s0
          = ((true, none), { hz with id := z.id }, s1,
             [R53Call.listHostedZonesByName hz.Name,
              R53Call.createHostedZone hz.Name hz.Comment hz.Private]) := by
      simp [HostedZone.CreateIfNotExists, HostedZone.checkIfExists, HostedZone.findExisting,
        HostedZone.CreateOrFail, hlist0, hcreate, AErr.isNotFound]
    have hsecond :
        hz.CreateIfNotExists s1
          = ((false, none), { hz with id := z.id }, s1,
             [R53Call.listHostedZonesByName hz.Name]) := by
      simp [HostedZone.CreateIfNotExists, HostedZone.checkIfExists, HostedZone.findExisting,
        hlist1, hname]
    refine ⟨hfirst, hsecond, rfl, ?_⟩
    intro n cm p hmem
    rw [hsecond] at hmem
    simp at hmem
  · intro σ v s0 vpc s1 s2 s3 s4 s5 hid hdesc0 hcreate hwait htags hmh hms hdesc5
    have hfirst :
        v.CreateIfNotExists s0
          = ((true, none), { v with id := vpc.vpcId }, s5,
             [.describeVpcsByName v.Name, .createVpc v.CidrBlock,
              .waitUntilVpcAvailable vpc.vpcId, .createTags vpc.vpcId v.Name,
              .modifyVpcAttributeDnsHostnames vpc.vpcId,
              .modifyVpcAttributeDnsSupport vpc.vpcId]) := by
      simp [VPC.CreateIfNotExists, VPC.checkIfExists, VPC.findExisting, VPC.CreateOrFail,
        hdesc0, hcreate, hwait, htags, hmh, hms, AErr.isNotFound]
    have hsecond :
        v.CreateIfNotExists s5 = ((false, none), v, s5, [.describeVpcsByName v.Name]) := by
      simp [VPC.CreateIfNotExists, VPC.checkIfExists, VPC.findExisting, hdesc5]
    have hgid1 : ({ v with id := vpc.vpcId } : VPC σ).GetID s5 = .ok vpc.vpcId := by
      by_cases hvz : vpc.vpcId = ""
      · simp [VPC.GetID, hvz, VPC.findExisting, hdesc5]
      · simp [VPC.GetID, hvz]
    have hgid2 : v.GetID s5 = .ok vpc.vpcId := by
      simp [VPC.GetID, hid, VPC.findExisting, hdesc5]
    refine ⟨hfirst, hgid1, hsecond, hgid2, ?_⟩
    intro cidr hmem
    rw [hsecond] at hmem
    simp at hmem

/-- C1 witness: the two-call scenario run concretely for a hosted zone
(provider state = list of zones) and a VPC (provider state = tagged VPC),
applying the general theorem with every hypothesis discharged. -/
theorem create_if_not_exists_idempotent_witness :
    (hzFresh.CreateIfNotExists []
      = ((true, none), { hzFresh with id := "Z1" },
         [{ id := "Z1", name := "aws.example.com." }],
         [R53Call.listHostedZonesByName "aws.example.com",
          R53Call.createHostedZone "aws.example.com" "cmt" false]) ∧
     hzFresh.CreateIfNotExists [{ id := "Z1", name := "aws.example.com." }]
      = ((false, none), { hzFresh with id := "Z1" },
         [{ id := "Z1", name := "aws.example.com." }],
         [R53Call.listHostedZonesByName "aws.example.com"])) ∧
    (vpcFresh.CreateIfNotExists none
      = ((true, none), { vpcFresh with id := "vpc-1" }, some "vpc-1",
         [.describeVpcsByName "cluster-vpc", .createVpc "10.0.0.0/16",
          .waitUntilVpcAvailable "vpc-1", .createTags "vpc-1" "cluster-vpc",
          .modifyVpcAttributeDnsHostnames "vpc-1", .modifyVpcAttributeDnsSupport "vpc-1"]) ∧
     vpcFresh.CreateIfNotExists (some "vpc-1")
      = ((false, none), vpcFresh, some "vpc-1", [.describeVpcsByName "cluster-vpc"]) ∧
     vpcFresh.GetID (some "vpc-1") = .ok "vpc-1") := by
  have hz := create_if_not_exists_idempotent.1 (List R53Zone) hzFresh []
    { id := "Z1", name := "aws.example.com." } [{ id := "Z1", name := "aws.example.com." }]
    rfl rfl rfl (by decide)
  have hv := create_if_not_exists_idempotent.2 (Option String) vpcFresh none
    { vpcId := "vpc-1" } none none (some "vpc-1") (some "vpc-1") (some "vpc-1")
    rfl rfl rfl rfl rfl rfl rfl rfl
  exact ⟨⟨hz.1, hz.2.1⟩, ⟨hv.1, hv.2.2.1, hv.2.2.2.1⟩⟩

end AwsOperator
